import Mathlib

/-!
Shallow embedding of `src/vue/sbc-common-components/src/services/keycloak.services.ts`
(the `KeyCloakService` session-token lifecycle manager) and proofs about the
claims of its specification.

Conventions of the embedding:
* JavaScript `undefined` is `Option.none`; `x || undefined` on strings is `orUndefined`.
* Machine time: every place the source computes `Math.ceil(new Date().getTime() / 1000)`
  the model takes that already-computed value as a parameter `nowSec : Int`.
* The keycloak-js instance (`this.kc`) is modelled by the record `KCInstance`
  carrying exactly the fields the service reads.
* `setTimeout` is modelled by a pending-timer list: arming appends a fresh id
  (with the computed delay in milliseconds) and returns that id as the stored
  handle `timerId`; `clearTimeout` would remove an id.  The source never calls
  `clearTimeout` before arming, and the model mirrors that.
* Promise-valued operations are modelled by explicit outcome parameters
  (`Except` for init/logout outcomes, `ProviderOutcome` for `updateToken`),
  and a thrown exception inside an async function is `Except.error`.
-/

namespace KC

/-- Modelled from the spec: the Session Store Adapter of §6 behind `ConfigHelper`
(`util/config-helper`, not under `src/`): key/value persistence with
get/set/remove/clear over the session keys the service uses.  `none` is an
absent key. -/
structure SessionStorage where
  keyCloakToken : Option String
  keyCloakRefreshToken : Option String
  keyCloakIdToken : Option String
  sessionSynced : Option Bool
  preventStorageSync : Option Bool
  siteminderLogoutUrl : Option String
deriving DecidableEq

/-- Storage with every key absent; `ConfigHelper.clearSession()` resets to this. -/
def emptyStorage : SessionStorage :=
  { keyCloakToken := none, keyCloakRefreshToken := none, keyCloakIdToken := none,
    sessionSynced := none, preventStorageSync := none, siteminderLogoutUrl := none }

/-- The observable state of the keycloak-js instance held in `this.kc`:
the three tokens, the `authenticated` flag, the parsed expiries
(`tokenParsed['exp']`, `refreshTokenParsed['exp']`; `none` when the parsed
object or its `exp` claim is absent) and `timeSkew` (`none` = `undefined`). -/
structure KCInstance where
  token : Option String
  refreshToken : Option String
  idToken : Option String
  authenticated : Bool
  tokenParsedExp : Option Int
  refreshTokenParsedExp : Option Int
  timeSkew : Option Int
deriving DecidableEq

/-- The decoded access-token claims object (`this.parsedToken`), with the
fields `getUserInfo` projects.  An object with no claims present models
`Object.keys(x).length === 0`. -/
structure ParsedTok where
  lastname : Option String
  firstname : Option String
  email : Option String
  realmAccessRoles : Option (List String)
  sub : Option String
  username : Option String
  name : Option String
  loginSource : Option String
deriving DecidableEq

/-- The all-absent claims object (decoding an absent/unparseable token). -/
def emptyTok : ParsedTok :=
  { lastname := none, firstname := none, email := none, realmAccessRoles := none,
    sub := none, username := none, name := none, loginSource := none }

/-- JS emptiness test `!Object.keys(this.parsedToken).length`: no claim present. -/
def isEmptyTok (t : ParsedTok) : Bool :=
  t.lastname.isNone && t.firstname.isNone && t.email.isNone &&
  t.realmAccessRoles.isNone && t.sub.isNone && t.username.isNone &&
  t.name.isNone && t.loginSource.isNone

/-- The profile record returned by `getUserInfo` (shape of `KCUserProfile`,
`models/KCUserProfile`, read off from the projection in `getUserInfo`). -/
structure KCUserProfile where
  lastName : Option String
  firstName : Option String
  email : Option String
  roles : Option (List String)
  keycloakGuid : Option String
  userName : Option String
  fullName : Option String
  loginSource : Option String
deriving DecidableEq

/-- JS string coalescing `x || undefined`: the empty string is falsy. -/
def orUndefined : Option String → Option String
  | none => none
  | some s => if s = "" then none else some s

/-- JS falsiness of an optional number: `undefined` and `0` are falsy. -/
def jsFalsyInt : Option Int → Bool
  | none => true
  | some v => v = 0

/-- The mutable state of the `KeyCloakService` singleton: the keycloak client
`kc`, the claims cache `parsedToken`, the refresh-attempt `counter`, the stored
timer handle `timerId`, the pending `setTimeout` timers (id, delay ms) with the
next fresh id, and the session storage. -/
structure ServiceState where
  kc : Option KCInstance
  parsedToken : Option ParsedTok
  counter : Nat
  timerId : Nat
  pendingTimers : List (Nat × Int)
  nextTimerId : Nat
  storage : SessionStorage
deriving DecidableEq

/-- Private `clearSession()`: removes the three persisted token keys.  (It also
clears the Pinia auth-state projection when one is active; no claim refers to
the projection, so only the persisted part is modelled.) -/
def clearSession (s : ServiceState) : ServiceState :=
  { s with storage := { s.storage with
      keyCloakToken := none, keyCloakIdToken := none, keyCloakRefreshToken := none } }

/-- `if (value) addToSession(key, value)`: store only a truthy string. -/
def storeIfTruthy (cur : Option String) (v : Option String) : Option String :=
  match orUndefined v with
  | some t => some t
  | none => cur

/-- Private `syncSessionStorage()`: with a client, persist each truthy token and
set `SessionSynced = true`; with no client set `SessionSynced = false`. -/
def syncSessionStorage (s : ServiceState) : SessionStorage :=
  match s.kc with
  | some kc =>
    { s.storage with
      keyCloakToken := storeIfTruthy s.storage.keyCloakToken kc.token,
      keyCloakRefreshToken := storeIfTruthy s.storage.keyCloakRefreshToken kc.refreshToken,
      keyCloakIdToken := storeIfTruthy s.storage.keyCloakIdToken kc.idToken,
      sessionSynced := some true }
  | none => { s.storage with sessionSynced := some false }

/-- `REFRESH_ATTEMPT_INTERVAL = 10` (seconds). -/
def REFRESH_ATTEMPT_INTERVAL : Int := 10

/-- The `refreshTokenExpiresIn` computation at the top of `scheduleRefreshToken`:
`-1` unless `this.kc && this.kc.timeSkew !== undefined && this.kc.refreshTokenParsed`,
in which case `refreshTokenParsed['exp'] - ceil(now ms / 1000) + timeSkew`. -/
def refreshTokenExpiresInCalc (nowSec : Int) (s : ServiceState) : Int :=
  match s.kc with
  | some kc =>
    match kc.timeSkew, kc.refreshTokenParsedExp with
    | some skew, some rexp => rexp - nowSec + skew
    | _, _ => -1
  | none => -1

/-- The `expiresIn` computation of `scheduleRefreshToken`: `-1` unless
`this.kc && this.kc.tokenParsed && this.kc.tokenParsed['exp'] && this.kc.timeSkew !== undefined`
(so a `0` expiry claim is falsy and skipped), in which case
`tokenParsed['exp'] - ceil(now ms / 1000) + timeSkew`. -/
def accessTokenExpiresInCalc (nowSec : Int) (s : ServiceState) : Int :=
  match s.kc with
  | some kc =>
    match kc.tokenParsedExp, kc.timeSkew with
    | some texp, some skew => if texp = 0 then -1 else texp - nowSec + skew
    | _, _ => -1
  | none => -1

/-- Private `scheduleRefreshToken(refreshEarlyTimeinMilliseconds)`: throws
`Refresh Token Expired. No more token refreshes` when either computed margin is
negative; otherwise runs `this.timerId = setTimeout(cb, expiresIn * 1000 - early)`,
which arms a fresh timer and overwrites the stored handle without clearing any
previously pending timer. -/
def scheduleRefreshToken (nowSec : Int) (refreshEarlyTimeinMilliseconds : Int)
    (s : ServiceState) : Except String ServiceState :=
  if refreshTokenExpiresInCalc nowSec s < 0 then
    .error "Refresh Token Expired. No more token refreshes"
  else if accessTokenExpiresInCalc nowSec s < 0 then
    .error "Refresh Token Expired. No more token refreshes"
  else
    .ok { s with
      timerId := s.nextTimerId,
      pendingTimers :=
        (s.nextTimerId, accessTokenExpiresInCalc nowSec s * 1000 - refreshEarlyTimeinMilliseconds)
          :: s.pendingTimers,
      nextTimerId := s.nextTimerId + 1 }

/-- `scheduleRefreshTimer(refreshEarlyTime = 0)`: delegates with an early margin
of `Math.max(REFRESH_ATTEMPT_INTERVAL, refreshEarlyTime) * 1000` milliseconds. -/
def scheduleRefreshTimer (nowSec : Int) (refreshEarlyTime : Int) (s : ServiceState) :
    Except String ServiceState :=
  scheduleRefreshToken nowSec (max REFRESH_ATTEMPT_INTERVAL refreshEarlyTime * 1000) s

/-- The value an awaiting caller of `syncSessionAndScheduleTokenRefresh` receives
when the promise resolves: either `this.kc.token` or the `Error('NOT_AUTHENTICATED')`
object returned (not thrown) in the unauthenticated branch. -/
inductive SyncOutcome
  | tokenVal (t : Option String)
  | errValue (msg : String)
deriving DecidableEq

/-- `syncSessionAndScheduleTokenRefresh(isScheduleRefresh = true)`: when
`this.kc?.authenticated`, persist tokens, optionally arm the refresh timer
(whose `Refresh Token Expired` throw rejects the promise, `Except.error`), and
resolve with the current token; otherwise clear the session and resolve with an
`Error('NOT_AUTHENTICATED')` value. -/
def syncSessionAndScheduleTokenRefresh (isScheduleRefresh : Bool) (nowSec : Int)
    (s : ServiceState) : Except String (SyncOutcome × ServiceState) :=
  match s.kc with
  | some kc =>
    if kc.authenticated then
      let s1 : ServiceState := { s with storage := syncSessionStorage s }
      if isScheduleRefresh then
        match scheduleRefreshTimer nowSec 0 s1 with
        | .ok s2 => .ok (.tokenVal kc.token, s2)
        | .error e => .error e
      else
        .ok (.tokenVal kc.token, s1)
    else
      .ok (.errValue "NOT_AUTHENTICATED", clearSession s)
  | none => .ok (.errValue "NOT_AUTHENTICATED", clearSession s)

/-- How the provider's `updateToken` promise settles. -/
inductive ProviderOutcome
  | resolvesTrue
  | resolvesFalse
  | rejects
deriving DecidableEq

/-- What an awaiting caller of `refreshToken` receives when its promise resolves:
`undefined`, or the `Error('Could not refresh Token:No Kc Instance')` value
returned when no client exists. -/
inductive RefreshCallerResult
  | undef
  | errValue (msg : String)
deriving DecidableEq

/-- One run of `refreshToken`, separating the caller-visible resolution from
what happens inside the detached `updateToken().then().catch()` chain. -/
structure RefreshRun where
  callerResult : RefreshCallerResult
  reachedProvider : Bool
  minValidity : Option Int
  innerError : Option String
  firesInitSession : Bool
  state : ServiceState
deriving DecidableEq

/-- The run of `refreshToken` in which the guard returned early: the promise
resolves with `undefined`, the provider is never contacted, nothing changes. -/
def refreshNoop (s : ServiceState) : RefreshRun :=
  { callerResult := .undef, reachedProvider := false, minValidity := none,
    innerError := none, firesInitSession := false, state := s }

/-- `refreshToken(isForceRefresh)`: no-op when not forcing and
`!this.kc?.tokenParsed?.exp || !this.kc.timeSkew` (JS falsiness: absent or zero);
otherwise computes `minValidity` (`-1` when forcing, else
`exp - ceil(now ms / 1000) + timeSkew + 100`) and fires the detached
`updateToken` chain: on rejection the catch clears the session and creates an
`Error('Could not refresh Token')` confined to the chain; on `refreshed = true`
the then-branch fires `this.initSession()` (recorded by `firesInitSession`);
in every chain case the function itself has already resolved with `undefined`.
With no client and `isForceRefresh` the promise resolves with the
`Error('Could not refresh Token:No Kc Instance')` value. -/
def refreshToken (isForceRefresh : Bool) (nowSec : Int) (outcome : ProviderOutcome)
    (s : ServiceState) : RefreshRun :=
  if !isForceRefresh &&
      (jsFalsyInt (s.kc.bind KCInstance.tokenParsedExp)
        || jsFalsyInt (s.kc.bind KCInstance.timeSkew)) then
    refreshNoop s
  else
    match s.kc with
    | some kc =>
      let tokenExpiresIn : Int :=
        if isForceRefresh then -1
        else kc.tokenParsedExp.getD 0 - nowSec + kc.timeSkew.getD 0 + 100
      match outcome with
      | .rejects =>
        { callerResult := .undef, reachedProvider := true,
          minValidity := some tokenExpiresIn,
          innerError := some "Could not refresh Token", firesInitSession := false,
          state := clearSession s }
      | .resolvesTrue =>
        { callerResult := .undef, reachedProvider := true,
          minValidity := some tokenExpiresIn,
          innerError := none, firesInitSession := true, state := s }
      | .resolvesFalse =>
        { callerResult := .undef, reachedProvider := true,
          minValidity := some tokenExpiresIn,
          innerError := none, firesInitSession := false, state := s }
    | none =>
      { callerResult := .errValue "Could not refresh Token:No Kc Instance",
        reachedProvider := false, minValidity := none, innerError := none,
        firesInitSession := false, state := s }

/-- Modelled from the spec: `decodeKCToken` (`util/common-util`, not under
`src/`) is the Token Decoder, "a pure function mapping a raw access token to a
structured claims record"; here an arbitrary pure function `decode` applied to
the current access token of the client. -/
def decodeCurrent (decode : Option String → ParsedTok) (s : ServiceState) : ParsedTok :=
  decode (s.kc.bind KCInstance.token)

/-- `getUserInfo()`: decode and cache the claims when `this.parsedToken` is
absent or empty, then project the profile fields from the (possibly stale)
cached claims. -/
def getUserInfo (decode : Option String → ParsedTok) (s : ServiceState) :
    KCUserProfile × ServiceState :=
  let t : ParsedTok :=
    match s.parsedToken with
    | some cached => if isEmptyTok cached then decodeCurrent decode s else cached
    | none => decodeCurrent decode s
  ({ lastName := t.lastname, firstName := t.firstname, email := t.email,
     roles := t.realmAccessRoles, keycloakGuid := t.sub, userName := t.username,
     fullName := t.name, loginSource := t.loginSource },
   { s with parsedToken := some t })

/-- `userInfo.roles.includes(role)`: a `TypeError` is thrown when `roles` is
`undefined`. -/
def includesJS (roles : Option (List String)) (r : String) : Except String Bool :=
  match roles with
  | some rs => .ok (rs.contains r)
  | none => .error "TypeError: roles is undefined"

/-- `Array.prototype.some` with a predicate that can throw: short-circuits on
the first `true`, propagates a thrown exception, `false` on the empty array. -/
def someJS : List String → (String → Except String Bool) → Except String Bool
  | [], _ => .ok false
  | r :: rest, p =>
    match p r with
    | .ok true => .ok true
    | .ok false => someJS rest p
    | .error e => .error e

/-- `verifyRoles(allowedRoles, disabledRoles)`: `true` when neither list is
supplied; otherwise fetch the user info and test
`allowedRoles ? allowedRoles.some(r => roles.includes(r)) : !disabledRoles.some(...)`
(an array, even `[]`, is truthy; `undefined` is falsy). -/
def verifyRoles (allowedRoles disabledRoles : Option (List String))
    (decode : Option String → ParsedTok) (s : ServiceState) :
    Except String Bool × ServiceState :=
  match allowedRoles with
  | some l =>
    let ui := getUserInfo decode s
    (someJS l (includesJS ui.1.roles), ui.2)
  | none =>
    match disabledRoles with
    | some d =>
      let ui := getUserInfo decode s
      ((someJS d (includesJS ui.1.roles)).map (fun b => !b), ui.2)
    | none => (.ok true, s)

/-- The options object passed to the provider `login`; `redirectUri` stands for
the fields the wrapper passes through untouched. -/
structure LoginOptions where
  idpHint : Option String
  redirectUri : Option String
deriving DecidableEq

/-- The wrapper `initializeKeyCloak` installs over `this.kc.login`:
`if (options) { options.idpHint = idpHint }; return kcLogin(options)`.  The
result is the options object the original provider login receives. -/
def patchedLogin (idpHint : String) (options : Option LoginOptions) : Option LoginOptions :=
  match options with
  | some o => some { o with idpHint := some idpHint }
  | none => none

/-- The `KeycloakInitOptions` object built by `initializeKeyCloak`,
`initializeToken` and `logout`. -/
structure KcInitOptions where
  onLoad : String
  checkLoginIframe : Bool
  timeSkew : Int
  token : Option String
  refreshToken : Option String
  idToken : Option String
  pkceMethod : String
deriving DecidableEq

/-- `initializeKeyCloak(idpHint)` up to the `kc.init` network call: clear the
session, read the stored tokens (`|| undefined`), construct the client with the
patched login and the fixed init options.  Returns the patched login function,
the init options and the post-clear state. -/
def initializeKeyCloak (idpHint : String) (s : ServiceState) :
    (Option LoginOptions → Option LoginOptions) × KcInitOptions × ServiceState :=
  let s1 := clearSession s
  ( patchedLogin idpHint,
    { onLoad := "login-required", checkLoginIframe := false, timeSkew := 0,
      token := orUndefined s1.storage.keyCloakToken,
      refreshToken := orUndefined s1.storage.keyCloakRefreshToken,
      idToken := orUndefined s1.storage.keyCloakIdToken,
      pkceMethod := "S256" }, s1 )

/-- Side effects of `logout`, in execution order. -/
inductive LogoutEvent
  | clearStorage
  | setPreventSync
  | netInit
  | netLogout
deriving DecidableEq

/-- How the promise returned by `logout` settles. -/
inductive LogoutSettle
  | resolved
  | rejected (e : String)
deriving DecidableEq

/-- One run of `logout`: the ordered side effects, the settlement of the
returned promise, and the final session storage. -/
structure LogoutRun where
  events : List LogoutEvent
  settle : LogoutSettle
  storage : SessionStorage
deriving DecidableEq

/-- Storage right after `ConfigHelper.clearSession()` followed by
`addToSession(PreventStorageSync, true)`. -/
def loggedOutStorage : SessionStorage :=
  { emptyStorage with preventStorageSync := some true }

/-- `logout(redirectUrl?)`: skip everything when the stored access token is
falsy (the async function resolves with `undefined`).  Otherwise clear all of
session storage and set the prevent-sync guard, then `kc.init`: on rejection
`reject(error)`; on resolution, when `!authenticated` call `resolve()` without
returning, then in every case call `kc.logout`, resolving on success and
calling `reject(error)` on failure — a promise settles only once, so the first
settlement wins.  The provider outcomes are the parameters `initOutcome` and
`logoutOutcome`; the redirect-URL computation has no claim-relevant effect and
is not tracked. -/
def logout (initOutcome : Except String Bool) (logoutOutcome : Except String Unit)
    (s : ServiceState) : LogoutRun :=
  match orUndefined s.storage.keyCloakToken with
  | none => { events := [], settle := .resolved, storage := s.storage }
  | some _ =>
    match initOutcome with
    | .error e =>
      { events := [.clearStorage, .setPreventSync, .netInit],
        settle := .rejected e, storage := loggedOutStorage }
    | .ok authenticated =>
      match logoutOutcome with
      | .ok _ =>
        { events := [.clearStorage, .setPreventSync, .netInit, .netLogout],
          settle := .resolved, storage := loggedOutStorage }
      | .error e =>
        { events := [.clearStorage, .setPreventSync, .netInit, .netLogout],
          settle := if authenticated then .rejected e else .resolved,
          storage := loggedOutStorage }

/-- A client with a live session: access token expiring at 1000, refresh token
at 2000 (provider-clock seconds), zero skew. -/
def demoKC : KCInstance :=
  { token := some "acc", refreshToken := some "ref", idToken := some "id",
    authenticated := true, tokenParsedExp := some 1000,
    refreshTokenParsedExp := some 2000, timeSkew := some 0 }

/-- A fresh service state holding `demoKC`, with empty storage and no timers. -/
def demoState : ServiceState :=
  { kc := some demoKC, parsedToken := none, counter := 0, timerId := 0,
    pendingTimers := [], nextTimerId := 1, storage := emptyStorage }

/-- `demoState` with the three tokens persisted in session storage. -/
def storedState : ServiceState :=
  { demoState with storage := { emptyStorage with
      keyCloakToken := some "acc", keyCloakRefreshToken := some "ref",
      keyCloakIdToken := some "id" } }

/-- Shape of a successful arming step: the stored handle is overwritten with the
fresh timer id and the fresh timer is prepended to the pending list, leaving
every previously pending timer pending. -/
theorem arming_shape (nowSec ms : Int) (s s2 : ServiceState)
    (h : scheduleRefreshToken nowSec ms s = .ok s2) :
    s2.timerId = s.nextTimerId ∧
    s2.pendingTimers
      = (s.nextTimerId, accessTokenExpiresInCalc nowSec s * 1000 - ms) :: s.pendingTimers := by
  unfold scheduleRefreshToken at h
  split_ifs at h
  injection h with h
  exact h ▸ ⟨rfl, rfl⟩

/-- `demoState` after one arming at second 900 with a 10000 ms early margin. -/
def demoArmedOnce : ServiceState :=
  { demoState with timerId := 1, pendingTimers := [(1, 90000)], nextTimerId := 2 }

/-- `demoState` after two armings: both timers pending at the same instant. -/
def demoArmedTwice : ServiceState :=
  { demoState with timerId := 2, pendingTimers := [(2, 90000), (1, 90000)], nextTimerId := 3 }

/-- C1 counterexample: from a state with no pending timer, two successful calls
of the refresh-scheduling operation leave TWO timers pending simultaneously
(`setTimeout` is issued with no preceding `clearTimeout`, only the stored
handle `timerId` is overwritten), so the claim that arming first
invalidates/cancels any previously pending timer — and that two pending refresh
timers never coexist — is false on the code. -/
theorem C1_counterexample :
    (scheduleRefreshToken 900 10000 demoState).bind (scheduleRefreshToken 900 10000)
      = .ok demoArmedTwice ∧ demoArmedTwice.pendingTimers.length = 2 := by
  exact ⟨rfl, rfl⟩

/-- C1 (amended): whenever the refresh-scheduling operation arms a new timer it
only overwrites the stored handle with the fresh timer id; no previously
pending timer is cancelled — the old pending timers all remain in the pending
list — so two pending refresh timers can coexist when scheduling is invoked
while a timer is pending. -/
theorem C1_arming_keeps_previous_pending (nowSec ms : Int) (s s2 : ServiceState)
    (h : scheduleRefreshToken nowSec ms s = .ok s2) :
    s2.timerId = s.nextTimerId ∧
    s2.pendingTimers
      = (s.nextTimerId, accessTokenExpiresInCalc nowSec s * 1000 - ms) :: s.pendingTimers :=
  arming_shape nowSec ms s s2 h

/-- C1 witness: the amended theorem applied to a concrete successful arming. -/
theorem C1_witness :
    demoArmedOnce.timerId = demoState.nextTimerId
    ∧ demoArmedOnce.pendingTimers
      = (demoState.nextTimerId, accessTokenExpiresInCalc 900 demoState * 1000 - 10000)
          :: demoState.pendingTimers :=
  C1_arming_keeps_previous_pending 900 10000 demoState demoArmedOnce (by rfl)

/-- C2: if the computed refresh-token validity margin or the computed
access-token validity margin is negative, `scheduleRefreshToken` throws
`Refresh Token Expired. No more token refreshes` (the rejection is raised
before the `setTimeout` call, so no timer is armed — the result carries no
successor state). -/
theorem C2_expired_margin_raises (s : ServiceState) (kc : KCInstance)
    (nowSec ms skw rexp texp : Int) (hkc : s.kc = some kc)
    (hskew : kc.timeSkew = some skw) (hrexp : kc.refreshTokenParsedExp = some rexp)
    (htexp : kc.tokenParsedExp = some texp)
    (hneg : rexp - nowSec + skw < 0 ∨ texp - nowSec + skw < 0) :
    scheduleRefreshToken nowSec ms s
      = .error "Refresh Token Expired. No more token refreshes" := by
  have hr : refreshTokenExpiresInCalc nowSec s = rexp - nowSec + skw := by
    simp [refreshTokenExpiresInCalc, hkc, hskew, hrexp]
  by_cases h1 : refreshTokenExpiresInCalc nowSec s < 0
  · simp [scheduleRefreshToken, h1]
  · have ht : texp - nowSec + skw < 0 := by
      rcases hneg with h | h
      · exact absurd (show refreshTokenExpiresInCalc nowSec s < 0 by rw [hr]; exact h) h1
      · exact h
    have ha : accessTokenExpiresInCalc nowSec s < 0 := by
      have heq : accessTokenExpiresInCalc nowSec s
          = if texp = 0 then -1 else texp - nowSec + skw := by
        simp [accessTokenExpiresInCalc, hkc, htexp, hskew]
      rw [heq]
      split_ifs
      · decide
      · exact ht
    simp [scheduleRefreshToken, h1, ha]

/-- C2 witness: at wall-clock second 3000 the demo refresh token (expiry 2000)
is already expired, and scheduling raises the terminal condition. -/
theorem C2_witness :
    scheduleRefreshToken 3000 10000 demoState
      = .error "Refresh Token Expired. No more token refreshes" :=
  C2_expired_margin_raises demoState demoKC 3000 10000 0 2000 1000
    rfl rfl rfl rfl (Or.inl (by decide))

/-- C3 counterexample: with a stored token, when `kc.init` resolves with
`authenticated = false` and the subsequent provider `logout` call rejects, the
returned promise does NOT reject with the underlying error — the
`resolve()` issued (without `return`) in the not-authenticated branch has
already settled it, so it resolves — refuting the claim that a provider logout
rejection always rejects the returned promise. -/
theorem C3_counterexample :
    (logout (Except.ok false) (Except.error "network down") storedState).settle
      = LogoutSettle.resolved := by decide

/-- C3 (amended): `logout` only proceeds if a stored access token exists,
resolving immediately as a no-op otherwise; when it proceeds, it clears all
persisted session state and sets the prevent-storage-sync guard flag before any
provider network round trip; and if the provider's logout call rejects after an
init that reported authenticated, the returned promise rejects with the
underlying error while local session state has already been cleared — but when
init reported not authenticated the promise has already resolved and the
logout rejection is swallowed. -/
theorem C3_logout_behaviour (i : Except String Bool) (l : Except String Unit)
    (s : ServiceState) :
    (orUndefined s.storage.keyCloakToken = none →
      logout i l s = { events := [], settle := .resolved, storage := s.storage })
    ∧ (∀ tk, orUndefined s.storage.keyCloakToken = some tk →
        ((logout i l s).events.take 3
            = [LogoutEvent.clearStorage, LogoutEvent.setPreventSync, LogoutEvent.netInit]
          ∧ (logout i l s).storage = loggedOutStorage
          ∧ loggedOutStorage.keyCloakToken = none
          ∧ loggedOutStorage.preventStorageSync = some true))
    ∧ (∀ tk e, orUndefined s.storage.keyCloakToken = some tk → i = .ok true →
        l = .error e → (logout i l s).settle = .rejected e) := by
  refine ⟨?_, ?_, ?_⟩
  · intro h
    simp [logout, h]
  · intro tk h
    cases i with
    | error e => simp [logout, h, loggedOutStorage, emptyStorage]
    | ok a =>
      cases l with
      | ok u => simp [logout, h, loggedOutStorage, emptyStorage]
      | error e => simp [logout, h, loggedOutStorage, emptyStorage]
  · intro tk e h hi hl
    subst hi
    subst hl
    simp [logout, h]

/-- C3 witness: the amended theorem at a concrete run in which init reports
authenticated and the provider logout call rejects. -/
theorem C3_witness :
    (logout (Except.ok true) (Except.error "boom") storedState).settle
      = LogoutSettle.rejected "boom" :=
  (C3_logout_behaviour (Except.ok true) (Except.error "boom") storedState).2.2
    "acc" "boom" (by decide) rfl rfl

/-- C4: when the client reports authenticated, `syncSessionAndScheduleTokenRefresh`
persists the current (truthy) tokens to session storage, marks session-sync
complete, arms the refresh timer when scheduling is requested, and resolves with
the current access token; when not authenticated it clears the session and
resolves with the `Error('NOT_AUTHENTICATED')` value — an `Except.ok` result,
not a thrown/rejected one. -/
theorem C4_sync_session_behaviour (s : ServiceState) (kc : KCInstance) (nowSec : Int)
    (s2 : ServiceState) (hkc : s.kc = some kc) :
    (kc.authenticated = true →
      scheduleRefreshTimer nowSec 0 { s with storage := syncSessionStorage s } = .ok s2 →
      (syncSessionAndScheduleTokenRefresh true nowSec s = .ok (.tokenVal kc.token, s2)
        ∧ (syncSessionStorage s).sessionSynced = some true
        ∧ (∀ t, orUndefined kc.token = some t → (syncSessionStorage s).keyCloakToken = some t)
        ∧ ∃ d, s2.pendingTimers = (s.nextTimerId, d) :: s.pendingTimers))
    ∧ (kc.authenticated = false →
      ∀ b, (syncSessionAndScheduleTokenRefresh b nowSec s
            = .ok (.errValue "NOT_AUTHENTICATED", clearSession s)
        ∧ (clearSession s).storage.keyCloakToken = none
        ∧ (clearSession s).storage.keyCloakIdToken = none
        ∧ (clearSession s).storage.keyCloakRefreshToken = none)) := by
  obtain ⟨k0, pt, cnt, tid, pend, nid, st⟩ := s
  replace hkc : k0 = some kc := hkc
  subst hkc
  constructor
  · intro hauth hsched
    refine ⟨?_, ?_, ?_, ?_⟩
    · simp [syncSessionAndScheduleTokenRefresh, hauth, hsched]
    · simp [syncSessionStorage]
    · intro t ht
      simp [syncSessionStorage, storeIfTruthy, ht]
    · have hsched2 : scheduleRefreshToken nowSec
          (max REFRESH_ATTEMPT_INTERVAL 0 * 1000)
          { ServiceState.mk (some kc) pt cnt tid pend nid st with
            storage := syncSessionStorage (ServiceState.mk (some kc) pt cnt tid pend nid st) }
          = .ok s2 := hsched
      obtain ⟨-, hp⟩ := arming_shape _ _ _ _ hsched2
      exact ⟨_, hp⟩
  · intro hauth b
    refine ⟨?_, rfl, rfl, rfl⟩
    simp [syncSessionAndScheduleTokenRefresh, hauth]

/-- The state produced by the authenticated sync-and-schedule path on `demoState`. -/
def demoSynced : ServiceState :=
  { demoState with
    timerId := 1, pendingTimers := [(1, 90000)], nextTimerId := 2,
    storage := { emptyStorage with
      keyCloakToken := some "acc", keyCloakRefreshToken := some "ref",
      keyCloakIdToken := some "id", sessionSynced := some true } }

/-- C4 witness: the theorem at a concrete authenticated state whose scheduling
succeeds. -/
theorem C4_witness :
    syncSessionAndScheduleTokenRefresh true 900 demoState
      = .ok (.tokenVal (some "acc"), demoSynced) :=
  ((C4_sync_session_behaviour demoState demoKC 900 demoSynced rfl).1 rfl (by rfl)).1

/-- A client whose established clock skew is 5 seconds (nonzero, hence truthy). -/
def skewKC : KCInstance :=
  { demoKC with timeSkew := some 5 }

/-- `demoState` holding `skewKC`. -/
def skewState : ServiceState :=
  { demoState with kc := some skewKC }

/-- C5: `refreshToken(isForceRefresh)` is a no-op when not forcing and the
parsed token expiry or the clock skew is JS-falsy (absent or zero); otherwise
the `minValidity` handed to the provider `updateToken` is
`tokenExpiry - ceil(now seconds) + clockSkew + 100`, and `-1` whenever
`isForceRefresh` is set, forcing a refresh regardless of remaining validity. -/
theorem C5_refresh_minValidity (s : ServiceState) (nowSec : Int) (o : ProviderOutcome) :
    ((jsFalsyInt (s.kc.bind KCInstance.tokenParsedExp)
        || jsFalsyInt (s.kc.bind KCInstance.timeSkew)) = true →
      refreshToken false nowSec o s = refreshNoop s)
    ∧ (∀ kc texp skw, s.kc = some kc → kc.tokenParsedExp = some texp → texp ≠ 0 →
        kc.timeSkew = some skw → skw ≠ 0 →
        (refreshToken false nowSec o s).minValidity = some (texp - nowSec + skw + 100))
    ∧ (∀ kc, s.kc = some kc → (refreshToken true nowSec o s).minValidity = some (-1)) := by
  refine ⟨?_, ?_, ?_⟩
  · intro hg
    simp [refreshToken, hg]
  · intro kc texp skw hkc htexp ht hskew hs
    cases o <;>
      simp [refreshToken, hkc, htexp, ht, hskew, hs, jsFalsyInt, refreshNoop]
  · intro kc hkc
    cases o <;> simp [refreshToken, hkc]

/-- C5 witness: the theorem at a concrete state with expiry 1000, skew 5, at
second 900, and at a forced refresh on the same state. -/
theorem C5_witness :
    (refreshToken false 900 ProviderOutcome.resolvesFalse skewState).minValidity
        = some (1000 - 900 + 5 + 100)
    ∧ (refreshToken true 900 ProviderOutcome.resolvesFalse skewState).minValidity
        = some (-1) :=
  ⟨(C5_refresh_minValidity skewState 900 ProviderOutcome.resolvesFalse).2.1
      skewKC 1000 5 rfl rfl (by decide) rfl (by decide),
   (C5_refresh_minValidity skewState 900 ProviderOutcome.resolvesFalse).2.2 skewKC rfl⟩

/-- C6 counterexample: a provider-rejected refresh attempt through
`refreshToken` clears the session, but the refresh-failure condition is NOT
surfaced to the caller: the caller's promise has already resolved with
`undefined`, and the `Error('Could not refresh Token')` value exists only
inside the detached inner chain — refuting the claim that the failure is
surfaced to the caller. -/
theorem C6_counterexample :
    (refreshToken true 900 ProviderOutcome.rejects storedState).state.storage.keyCloakToken
        = none
    ∧ (refreshToken true 900 ProviderOutcome.rejects storedState).innerError
        = some "Could not refresh Token"
    ∧ (refreshToken true 900 ProviderOutcome.rejects storedState).callerResult
        = RefreshCallerResult.undef := by
  exact ⟨rfl, rfl, rfl⟩

/-- C6 (amended): whenever a refresh attempt that reaches the provider is
rejected, the manager clears the session, and the rejection is handled inside
the inner promise chain (so it never propagates as an unhandled rejection of
the returned promise) — but the refresh-failure condition is not surfaced to
the caller: the `Error` value stays inside the inner chain and the caller's
promise resolves with `undefined`. -/
theorem C6_refresh_failure_contained (force : Bool) (nowSec : Int) (s : ServiceState)
    (h : (refreshToken force nowSec ProviderOutcome.rejects s).reachedProvider = true) :
    (refreshToken force nowSec ProviderOutcome.rejects s).state = clearSession s
    ∧ (refreshToken force nowSec ProviderOutcome.rejects s).innerError
        = some "Could not refresh Token"
    ∧ (refreshToken force nowSec ProviderOutcome.rejects s).callerResult
        = RefreshCallerResult.undef := by
  cases hkc : s.kc with
  | none =>
    exfalso
    cases force <;> simp [refreshToken, hkc, refreshNoop, jsFalsyInt] at h
  | some kc =>
    by_cases hc : (force = false
        ∧ (jsFalsyInt kc.tokenParsedExp = true ∨ jsFalsyInt kc.timeSkew = true))
    · exfalso
      simp [refreshToken, hkc, hc, refreshNoop] at h
    · refine ⟨?_, ?_, ?_⟩ <;> simp [refreshToken, hkc, hc]

/-- C6 witness: the amended theorem at a concrete provider-rejected run. -/
theorem C6_witness :
    (refreshToken true 900 ProviderOutcome.rejects skewState).state
      = clearSession skewState :=
  (C6_refresh_failure_contained true 900 skewState (by decide)).1

/-- C10: for every call of `refreshToken` that reaches the provider, the
promise returned to the caller resolves with `undefined` regardless of how the
provider's `updateToken` later settles (the inner chain is never awaited or
returned), and the `Error('Could not refresh Token')` value created in the
failure branch exists only inside the inner chain — the caller's resolution is
`undefined` even then, so the error is never delivered to the caller. -/
theorem C10_refresh_promise_detached (force : Bool) (nowSec : Int) (o : ProviderOutcome)
    (s : ServiceState) (h : (refreshToken force nowSec o s).reachedProvider = true) :
    (refreshToken force nowSec o s).callerResult = RefreshCallerResult.undef
    ∧ (∀ o2, (refreshToken force nowSec o2 s).callerResult = RefreshCallerResult.undef)
    ∧ (refreshToken force nowSec ProviderOutcome.rejects s).innerError
        = some "Could not refresh Token"
    ∧ (refreshToken force nowSec ProviderOutcome.rejects s).callerResult
        = RefreshCallerResult.undef := by
  cases hkc : s.kc with
  | none =>
    exfalso
    cases force <;> cases o <;>
      simp [refreshToken, hkc, refreshNoop, jsFalsyInt] at h
  | some kc =>
    by_cases hc : (force = false
        ∧ (jsFalsyInt kc.tokenParsedExp = true ∨ jsFalsyInt kc.timeSkew = true))
    · exfalso
      cases o <;> simp [refreshToken, hkc, hc, refreshNoop] at h
    · refine ⟨?_, ?_, ?_, ?_⟩
      · cases o <;> simp [refreshToken, hkc, hc]
      · intro o2
        cases o2 <;> simp [refreshToken, hkc, hc]
      · simp [refreshToken, hkc, hc]
      · simp [refreshToken, hkc, hc]

/-- C10 witness: the theorem at a concrete provider-reached call. -/
theorem C10_witness :
    (refreshToken true 900 ProviderOutcome.resolvesTrue skewState).callerResult
      = RefreshCallerResult.undef :=
  (C10_refresh_promise_detached true 900 ProviderOutcome.resolvesTrue skewState
    (by decide)).1

/-- Evaluation of the JS `some` loop over a defined role list: no exception,
and the result is list intersection. -/
theorem someJS_includes (rs : List String) (l : List String) :
    someJS l (includesJS (some rs)) = .ok (l.any fun r => rs.contains r) := by
  induction l with
  | nil => rfl
  | cons r t ih =>
    cases h : rs.contains r with
    | false => simp only [someJS, includesJS, h, ih, List.any_cons, Bool.false_or]
    | true => simp only [someJS, includesJS, h, List.any_cons, Bool.true_or]

/-- C7: `verifyRoles(allowedRoles, disabledRoles)` grants unconditionally when
neither list is supplied; when `allowedRoles` is supplied it takes precedence
over any `disabledRoles` and grants iff the user's role set intersects it —
hence `verifyRoles([], undefined)` denies every user, including one with no
roles at all; when only `disabledRoles` is supplied it grants iff the user's
role set does not intersect it. -/
theorem C7_verifyRoles_semantics (decode : Option String → ParsedTok)
    (s : ServiceState) (rs l dl : List String) (d : Option (List String))
    (h : (getUserInfo decode s).1.roles = some rs) :
    (verifyRoles none none decode s).1 = .ok true
    ∧ (verifyRoles (some l) d decode s).1 = .ok (l.any fun r => rs.contains r)
    ∧ (∀ d2 (decode2 : Option String → ParsedTok) (s2 : ServiceState),
        (verifyRoles (some []) d2 decode2 s2).1 = .ok false)
    ∧ (verifyRoles none (some dl) decode s).1
        = .ok (!(dl.any fun r => rs.contains r)) := by
  refine ⟨rfl, ?_, ?_, ?_⟩
  · show someJS l (includesJS (getUserInfo decode s).1.roles) = _
    rw [h, someJS_includes]
  · intro d2 decode2 s2
    rfl
  · show (someJS dl (includesJS (getUserInfo decode s).1.roles)).map (fun b => !b) = _
    rw [h, someJS_includes]
    rfl

/-- A cached claims object for a user holding the roles admin and staff. -/
def rolesTok : ParsedTok :=
  { emptyTok with realmAccessRoles := some ["admin", "staff"], username := some "u" }

/-- `demoState` with `rolesTok` already cached in `parsedToken`. -/
def rolesState : ServiceState :=
  { demoState with parsedToken := some rolesTok }

/-- A decoder that yields the all-absent claims record (never reached when the
cache already holds a nonempty claims object). -/
def dec0 : Option String → ParsedTok :=
  fun _ => emptyTok

/-- C7 witness: the theorem at a user with roles admin and staff — an
intersecting allow-list grants, a disjoint deny-list grants. -/
theorem C7_witness :
    (verifyRoles (some ["admin"]) none dec0 rolesState).1 = .ok true
    ∧ (verifyRoles none (some ["banned"]) dec0 rolesState).1 = .ok true :=
  ⟨(C7_verifyRoles_semantics dec0 rolesState ["admin", "staff"] ["admin"] ["banned"]
      none (by decide)).2.1,
   (C7_verifyRoles_semantics dec0 rolesState ["admin", "staff"] ["admin"] ["banned"]
      none (by decide)).2.2.2⟩

/-- C8 counterexample: after `initializeKeyCloak("bcsc", ...)`, a login attempt
that passes NO options object reaches the original provider login with no
options at all — `if (options)` skips the hint injection — so the identity
provider hint is NOT injected into every login attempt, refuting the claim. -/
theorem C8_counterexample :
    (initializeKeyCloak "bcsc" demoState).1 none = none := rfl

/-- C8 (amended): after `initializeKeyCloak(idpHint)`, the hint is injected
into every login attempt that passes an options object through the patched
instance login (which covers login flows triggered internally by the client,
since the instance method itself is replaced); a login call that passes no
options object is forwarded to the provider login without any hint. -/
theorem C8_hint_injected_when_options_present (idpHint : String) (s : ServiceState)
    (o : LoginOptions) :
    (initializeKeyCloak idpHint s).1 (some o) = some { o with idpHint := some idpHint }
    ∧ (initializeKeyCloak idpHint s).1 none = none :=
  ⟨rfl, rfl⟩

/-- The decoder used in the C9 scenario: token B decodes to the user bob,
any other present token decodes to the user alice. -/
def C9decode : Option String → ParsedTok :=
  fun tok =>
    match tok with
    | some str =>
      if str = "tokenB" then { emptyTok with username := some "bob" }
      else { emptyTok with username := some "alice" }
    | none => emptyTok

/-- The service state after `getUserInfo` has run once while the access token
was token A: alice's claims are cached in `parsedToken`. -/
def C9afterFirst : ServiceState :=
  (getUserInfo C9decode
    { demoState with kc := some { demoKC with token := some "tokenA" } }).2

/-- `C9afterFirst` after the access token changed to token B (as a successful
refresh would do); nothing in the code touches the `parsedToken` cache. -/
def C9afterChange : ServiceState :=
  { C9afterFirst with kc := some { demoKC with token := some "tokenB" } }

/-- C9 counterexample: after the access token changes from token A to token B,
`getUserInfo` still returns the claims cached from token A (alice), although
decoding the current access token yields bob — the claims cache is NOT
invalidated when the underlying access token changes, refuting the claim. -/
theorem C9_counterexample :
    (getUserInfo C9decode C9afterChange).1.userName = some "alice"
    ∧ (C9decode (C9afterChange.kc.bind KCInstance.token)).username = some "bob" := by
  exact ⟨rfl, rfl⟩

/-- C9 (amended): `getUserInfo` decodes the access token lazily and caches the
claims record, recomputing only when the cache is absent or empty; the cache is
never invalidated when the underlying access token changes — with a nonempty
cache the result is the cached record, independent of the current client and
its token. -/
theorem C9_cache_behaviour (decode : Option String → ParsedTok) (s : ServiceState)
    (t : ParsedTok) :
    (s.parsedToken = some t → isEmptyTok t = false →
      ∀ k : Option KCInstance,
        ((getUserInfo decode { s with kc := k }).1 = (getUserInfo decode s).1
          ∧ (getUserInfo decode { s with kc := k }).2.parsedToken = some t))
    ∧ (s.parsedToken = none →
        (getUserInfo decode s).2.parsedToken = some (decodeCurrent decode s)) := by
  constructor
  · intro h hne k
    constructor
    · simp [getUserInfo, h, hne]
    · simp [getUserInfo, h, hne]
  · intro h
    simp [getUserInfo, h]

/-- C9 witness: the amended theorem at the cached alice state — dropping the
client entirely does not change what `getUserInfo` returns. -/
theorem C9_witness :
    (getUserInfo dec0 { rolesState with kc := none }).1
      = (getUserInfo dec0 rolesState).1 :=
  ((C9_cache_behaviour dec0 rolesState rolesTok).1 rfl (by decide) none).1

end KC
